import Mathlib

/-!
Verification of the `xmlrpcclient` package of `csxuejin/supervisord`
(file `xmlrpcclient/xmlrpc-client.go`), a client for a process-supervision
daemon speaking XML-RPC over HTTP(S) or a unix-domain socket.

The shallow embedding below translates, from the source:
  * the final status-code check of `post` (lines 128-133),
  * the request-building steps of both transport branches of `post`
    (basic-auth attachment at lines 71-73 and 112-114, content type,
    target URL), and the overall branch structure of `post` (lines 58-134),
  * the verb validation of `ChangeProcessState` (lines 163-180) and
    `ChangeAllProcessState` (lines 182-195),
  * the callback state machine that `ReloadConfig` (lines 211-249)
    registers on the streaming XML processor: a shared group index `i`
    starting at -1, a `has_value` flag, and the three accumulators
    `AddedGroup`, `ChangedGroup`, `RemovedGroup`.

The streaming XML processor itself (`XmlProcessorManager`, file
`xml-processor.go`) is not part of the sources at hand; where a claim
needs it, it is modelled from the spec and marked as such.

External collaborators (the XML-RPC encoder/decoder, the HTTP stack,
the socket dialer) are taken as oracle function parameters; the
embedding logs each transport invocation so that "no network I/O" is a
provable statement (an empty log under every oracle).
-/

/-- One structural event dispatched to the callbacks that `ReloadConfig`
registers: a leaf callback invocation carrying the decoded text of a
terminal element, or a non-leaf (container-boundary) pulse carrying no
value.  These are the two callback kinds of the processor registration
table (`AddLeafProcessor` / `AddNonLeafProcessor`). -/
inductive XmlEvent where
  | leaf (value : String)
  | nonLeaf
deriving DecidableEq, Repr

/-- The mutable state owned by one `ReloadConfig` call: the shared group
index `i` (initialised to -1), the `has_value` flag, and the three group
accumulators of `types.ReloadConfigResult`. -/
structure ReloadState where
  i : Int
  has_value : Bool
  addedGroup : List String
  changedGroup : List String
  removedGroup : List String
deriving DecidableEq, Repr

/-- The leaf callback `ReloadConfig` registers for path
`methodResponse/params/param/value/array/data/value` (lines 234-245):
set `has_value`, increment `i`, and append the value to the accumulator
selected by the switch on `i` (0, 1 or 2; any other index falls through
with no append). -/
def reloadLeafStep (s : ReloadState) (value : String) : ReloadState :=
  let t := { s with has_value := true, i := s.i + 1 }
  if t.i = 0 then { t with addedGroup := t.addedGroup ++ [value] }
  else if t.i = 1 then { t with changedGroup := t.changedGroup ++ [value] }
  else if t.i = 2 then { t with removedGroup := t.removedGroup ++ [value] }
  else t

/-- The non-leaf callback `ReloadConfig` registers for path
`methodResponse/params/param/value/array/data` (lines 226-232): if
`has_value` is set, clear it; otherwise increment `i`. -/
def reloadNonLeafStep (s : ReloadState) : ReloadState :=
  if s.has_value then { s with has_value := false }
  else { s with i := s.i + 1 }

/-- Dispatch of one structural event to the registered callbacks. -/
def reloadStep (s : ReloadState) : XmlEvent → ReloadState
  | XmlEvent.leaf v => reloadLeafStep s v
  | XmlEvent.nonLeaf => reloadNonLeafStep s

/-- The state `ReloadConfig` sets up before processing (lines 220-224):
`i = -1`, `has_value = false`, all three accumulators empty. -/
def reloadInit : ReloadState :=
  { i := -1, has_value := false, addedGroup := [], changedGroup := [], removedGroup := [] }

/-- Run the registered callbacks over a whole event sequence, as one
streaming pass of the processor does. -/
def runReload (events : List XmlEvent) : ReloadState :=
  events.foldl reloadStep reloadInit

/-- Number of leaf values in an event sequence. -/
def numLeaves : List XmlEvent → Nat
  | [] => 0
  | XmlEvent.leaf _ :: es => numLeaves es + 1
  | XmlEvent.nonLeaf :: es => numLeaves es

/-- Total number of elements held by the three accumulators. -/
def totalLen (s : ReloadState) : Nat :=
  s.addedGroup.length + s.changedGroup.length + s.removedGroup.length

/-- Modelled from the spec: the structural events one sibling group
contributes under the path-keyed streaming processor (missing source
file `xml-processor.go`, `XmlProcessorManager.ProcessXml`).  The
container callback "is invoked once each time the parser structurally
enters OR exits a container element whose full path equals `path`", and
the leaf callback fires once per terminal value; so a group yields an
entry pulse, one leaf event per value, and an exit pulse. -/
def groupEvents (g : List String) : List XmlEvent :=
  XmlEvent.nonLeaf :: (g.map XmlEvent.leaf ++ [XmlEvent.nonLeaf])

/-- Modelled from the spec: the event sequence of a whole response
document whose payload is the given list of sibling groups, processed
in document order by the single-pass streaming processor. -/
def eventsOfGroups : List (List String) → List XmlEvent
  | [] => []
  | g :: gs => groupEvents g ++ eventsOfGroups gs

/-- The relevant observable state of an `http.Response`: its numeric
status code, its status text (`resp.Status`), and whether `Body.Close`
has been called on it. -/
structure HttpResponse where
  statusCode : Nat
  status : String
  bodyClosed : Bool
deriving DecidableEq, Repr

/-- Outcome of `post`: a response handed to the caller, an error return,
or the nil-pointer dereference that `resp.StatusCode` performs when no
transport branch ran (`resp` still nil). -/
inductive PostOutcome where
  | ok (resp : HttpResponse)
  | err (msg : String)
  | nilDereference
deriving DecidableEq, Repr

/-- The final status check of `post` (lines 128-133): when
`resp.StatusCode/100 != 2`, print `Bad Response:` with the status text,
close the body, and return the error `Response code is NOT 2xx`;
otherwise hand the response back untouched.  The result carries the
outcome, the response as left behind (body possibly closed), and the
lines printed to standard output. -/
def checkResponse (resp : HttpResponse) : PostOutcome × HttpResponse × List String :=
  if resp.statusCode / 100 ≠ 2 then
    (PostOutcome.err "Response code is NOT 2xx",
     { resp with bodyClosed := true },
     ["Bad Response: " ++ resp.status])
  else
    (PostOutcome.ok resp, resp, [])

/-- Does `needle` match `haystack` position by position from the front? -/
def matchesAt : List Char → List Char → Bool
  | [], _ => true
  | _ :: _, [] => false
  | a :: as, b :: bs => a == b && matchesAt as bs

/-- Does `needle` occur contiguously anywhere in `haystack`? -/
def occursInChars (needle : List Char) : List Char → Bool
  | [] => matchesAt needle []
  | b :: bs => matchesAt needle (b :: bs) || occursInChars needle bs

/-- Does the string `needle` occur as a substring of `haystack`? -/
def occursIn (needle haystack : String) : Bool :=
  occursInChars needle.data haystack.data

/-- The observable parts of the `http.Request` both branches of `post`
build: the request target, whether `SetBasicAuth` was called and with
which credentials, and the `Content-Type` header. -/
structure HttpRequest where
  urlStr : String
  hasBasicAuth : Bool
  authUser : String
  authPassword : String
  contentType : String
deriving DecidableEq, Repr

/-- Request building of the http(s) branch of `post` (lines 66-81):
target `r.Url()` = serverurl + `/RPC2`; `SetBasicAuth(user, password)`
exactly when `len(user) > 0 && len(password) > 0` (lines 71-73); then
`Content-Type: text/xml`. -/
def buildHttpBranchRequest (user password serverurl : String) : HttpRequest :=
  let req : HttpRequest :=
    { urlStr := serverurl ++ "/RPC2", hasBasicAuth := false,
      authUser := "", authPassword := "", contentType := "" }
  let req :=
    if 0 < user.length ∧ 0 < password.length then
      { req with hasBasicAuth := true, authUser := user, authPassword := password }
    else req
  { req with contentType := "text/xml" }

/-- Request building of the unix-socket branch of `post` (lines 107-115):
target `/RPC2`; `SetBasicAuth(user, password)` exactly when
`len(user) > 0 && len(password) > 0` (lines 112-114); then
`Content-Type: text/xml`. -/
def buildUnixBranchRequest (user password : String) : HttpRequest :=
  let req : HttpRequest :=
    { urlStr := "/RPC2", hasBasicAuth := false,
      authUser := "", authPassword := "", contentType := "" }
  let req :=
    if 0 < user.length ∧ 0 < password.length then
      { req with hasBasicAuth := true, authUser := user, authPassword := password }
    else req
  { req with contentType := "text/xml" }

/-- The parts of a parsed URL that `post` consults: `url.Scheme` and
`url.Path`. -/
structure Url where
  scheme : String
  path : String
deriving DecidableEq, Repr

/-- The control flow of `post` (lines 58-134).  `parsed` is the outcome
of `url.Parse(r.serverurl)`; `httpSend` and `unixSend` are the two
transports (`http.DefaultClient.Do`, and dial/write/read on the unix
socket), taken as oracles.  The returned list records which transport
was invoked.  When the scheme matches neither branch, `resp` is never
set and the status check at line 128 dereferences a nil pointer,
modelled by `PostOutcome.nilDereference`. -/
def post (parsed : Except String Url) (user password serverurl : String)
    (httpSend unixSend : HttpRequest → Except String HttpResponse) :
    PostOutcome × List String :=
  match parsed with
  | Except.error e => (PostOutcome.err e, [])
  | Except.ok u =>
    let sent : Option (Except String HttpResponse) × List String :=
      if u.scheme = "http" ∨ u.scheme = "https" then
        (some (httpSend (buildHttpBranchRequest user password serverurl)), ["httpSend"])
      else if u.scheme = "unix" then
        (some (unixSend (buildUnixBranchRequest user password)), ["unixSend"])
      else
        (none, [])
    match sent.1 with
    | some (Except.error e) => (PostOutcome.err e, sent.2)
    | some (Except.ok resp) => ((checkResponse resp).1, sent.2)
    | none => (PostOutcome.nilDereference, sent.2)

/-- The single argument payload of a method call, as built by the
invoker methods: the empty struct, `struct{ Value string }`, or
`struct{ Wait bool }`. -/
inductive RpcArg where
  | emptyArg
  | procName (value : String)
  | waitFlag (wait : Bool)
deriving DecidableEq, Repr

/-- `ChangeProcessState` (lines 163-180): reject any verb other than
`start` or `stop` with the local error `Incorrect required state`
before any I/O; otherwise post `supervisor.<change>Process` with
`struct{ Value string }{processName}` and decode the reply.  `postCall`
and `decodeResp` are oracles; the returned list logs each method posted,
so an empty log under every oracle states that the transport was never
invoked. -/
def ChangeProcessState {Resp Reply : Type}
    (postCall : String → RpcArg → Except String Resp)
    (decodeResp : Resp → Except String Reply)
    (change processName : String) : Except String Reply × List String :=
  if ¬(change = "start" ∨ change = "stop") then
    (Except.error "Incorrect required state", [])
  else
    let method := "supervisor." ++ change ++ "Process"
    match postCall method (RpcArg.procName processName) with
    | Except.error e => (Except.error e, [method])
    | Except.ok resp => (decodeResp resp, [method])

/-- `ChangeAllProcessState` (lines 182-195): reject any verb other than
`start` or `stop` with the local error `Incorrect required state`
before any I/O; otherwise post `supervisor.<change>AllProcesses` with
`struct{ Wait bool }{true}` and decode the reply. -/
def ChangeAllProcessState {Resp Reply : Type}
    (postCall : String → RpcArg → Except String Resp)
    (decodeResp : Resp → Except String Reply)
    (change : String) : Except String Reply × List String :=
  if ¬(change = "start" ∨ change = "stop") then
    (Except.error "Incorrect required state", [])
  else
    let method := "supervisor." ++ change ++ "AllProcesses"
    match postCall method (RpcArg.waitFlag true) with
    | Except.error e => (Except.error e, [method])
    | Except.ok resp => (decodeResp resp, [method])

/-- Modelled from the spec: a response body as seen by the streaming
processor (missing source file `xml-processor.go`).  `events` are the
structural events of the well-formed portion of the document in
document order; `decodeFailure` is `some msg` when the document is
malformed or truncated after those events, the failure the spec says a
processor run on such input produces. -/
structure XmlDocument where
  events : List XmlEvent
  decodeFailure : Option String
deriving DecidableEq, Repr

/-- Modelled from the spec: `ProcessXml` drives one single pass over the
document, firing the registered callbacks in document order, and
reports the decode failure of a malformed or truncated document. -/
def processXml (doc : XmlDocument) (s : ReloadState) : ReloadState × Option String :=
  (doc.events.foldl reloadStep s, doc.decodeFailure)

/-- `types.ReloadConfigResult`: the three group lists of the
configuration-reload reply. -/
structure ReloadConfigResult where
  addedGroup : List String
  changedGroup : List String
  removedGroup : List String
deriving DecidableEq, Repr

/-- `ReloadConfig` (lines 211-249): if `post` failed, return its error;
otherwise initialise the accumulators and the `i`/`has_value` state,
register the two callbacks, run `ProcessXml` on the body — discarding
its outcome (line 247 ignores it; no error variable is ever set after
the `post` call) — and return the accumulators with a nil error. -/
def ReloadConfig (postResult : Except String HttpResponse) (doc : XmlDocument) :
    Except String ReloadConfigResult :=
  match postResult with
  | Except.error e => Except.error e
  | Except.ok _ =>
    let final := (processXml doc reloadInit).1
    Except.ok { addedGroup := final.addedGroup,
                changedGroup := final.changedGroup,
                removedGroup := final.removedGroup }

deriving instance DecidableEq for Except

/-! ## Theorems -/

/-- C1: the claim expects processing a response encoding the groups
`["a","b"]`, `[]`, `["c"]` to yield added=`["a","b"]`, changed=`[]`,
removed=`["c"]`.  Evaluating `ReloadConfig` on that document (its event
sequence modelled from the spec) shows the code instead yields
added=`[]`, changed=`["a"]`, removed=`["b"]`: the leaf callback
increments the shared index on every leaf, so the second value of the
first group lands one bucket further along, and the value of the third
group is dropped. -/
theorem ReloadConfig_groups_ab_empty_c_eval :
    ReloadConfig (Except.ok { statusCode := 200, status := "200 OK", bodyClosed := false })
        { events := eventsOfGroups [["a", "b"], [], ["c"]], decodeFailure := none }
      = Except.ok { addedGroup := [], changedGroup := ["a"], removedGroup := ["b"] }
  ∧ ReloadConfig (Except.ok { statusCode := 200, status := "200 OK", bodyClosed := false })
        { events := eventsOfGroups [["a", "b"], [], ["c"]], decodeFailure := none }
      ≠ Except.ok { addedGroup := ["a", "b"], changedGroup := [], removedGroup := ["c"] } := by
  constructor
  · rfl
  · decide

/-- C2: in the reload-configuration decode, every leaf callback sets the
`has_value` flag and advances the shared index by one, and every
non-leaf pulse leaves the flag clear, keeping the index unchanged when
the flag was set and advancing it by one when it was not. -/
theorem reload_leaf_and_pulse_step_spec (s : ReloadState) (v : String) :
    ((reloadStep s (XmlEvent.leaf v)).has_value = true
      ∧ (reloadStep s (XmlEvent.leaf v)).i = s.i + 1)
  ∧ ((reloadStep s XmlEvent.nonLeaf).has_value = false
      ∧ (reloadStep s XmlEvent.nonLeaf).i = (if s.has_value then s.i else s.i + 1)) := by
  constructor
  · unfold reloadStep reloadLeafStep
    dsimp only
    split_ifs <;> exact ⟨rfl, rfl⟩
  · unfold reloadStep reloadNonLeafStep
    split_ifs <;> simp_all

/-- Each leaf callback invocation grows the three accumulators by at
most one element in total (it appends to at most one of them). -/
theorem totalLen_leafStep_le (s : ReloadState) (v : String) :
    totalLen (reloadLeafStep s v) ≤ totalLen s + 1 := by
  unfold reloadLeafStep totalLen
  dsimp only
  split_ifs <;> simp <;> omega

/-- A non-leaf pulse never touches the accumulators. -/
theorem totalLen_nonLeafStep (s : ReloadState) :
    totalLen (reloadNonLeafStep s) = totalLen s := by
  unfold reloadNonLeafStep totalLen
  split_ifs <;> rfl

/-- Folding the callbacks over any event sequence grows the accumulators
by at most the number of leaf values seen. -/
theorem totalLen_foldl_le (events : List XmlEvent) :
    ∀ s : ReloadState, totalLen (events.foldl reloadStep s) ≤ totalLen s + numLeaves events := by
  induction events with
  | nil => intro s; simp [numLeaves]
  | cons e es ih =>
    intro s
    have h1 : totalLen (es.foldl reloadStep (reloadStep s e))
        ≤ totalLen (reloadStep s e) + numLeaves es := ih _
    have h2 : totalLen (reloadStep s e) ≤ totalLen s + numLeaves [e] := by
      cases e with
      | leaf v => simpa [reloadStep, numLeaves] using totalLen_leafStep_le s v
      | nonLeaf => simp [reloadStep, numLeaves, totalLen_nonLeafStep]
    have h3 : numLeaves (e :: es) = numLeaves [e] + numLeaves es := by
      cases e <;> simp [numLeaves, Nat.add_comm]
    simp only [List.foldl_cons]
    omega

/-- C3 (counterexample): the document with groups `["a","b"]`, `[]`,
`["c"]` is a valid three-group document with three leaf values, yet the
three accumulators end up holding two elements in total, so the claimed
equality of counts fails on the code. -/
theorem reload_total_count_counterexample :
    totalLen (runReload (eventsOfGroups [["a", "b"], [], ["c"]]))
      ≠ numLeaves (eventsOfGroups [["a", "b"], [], ["c"]]) := by
  decide

/-- C3 (amended): over every event sequence the three accumulators
together hold at most as many elements as there are leaf values — each
leaf is appended to at most one accumulator and non-leaf pulses append
nothing — but the total can fall short, because a leaf arriving while
the shared index is outside 0..2 is dropped. -/
theorem reload_total_le_numLeaves :
    (∀ events : List XmlEvent, totalLen (runReload events) ≤ numLeaves events)
  ∧ (∀ (s : ReloadState) (v : String), totalLen (reloadLeafStep s v) ≤ totalLen s + 1)
  ∧ (∀ s : ReloadState, totalLen (reloadNonLeafStep s) = totalLen s) := by
  refine ⟨fun events => ?_, totalLen_leafStep_le, totalLen_nonLeafStep⟩
  have h := totalLen_foldl_le events reloadInit
  simpa [runReload, reloadInit, totalLen] using h

/-- C4: at each leaf callback the incremented shared index routes the
value to exactly one accumulator — 0 appends to added, 1 to changed, 2
to removed — and any other index (in particular every index greater
than 2) leaves all three accumulators unchanged, the value being
silently dropped with no error. -/
theorem reload_index_routing (s : ReloadState) (v : String) :
    ((reloadLeafStep s v).addedGroup
        = if s.i + 1 = 0 then s.addedGroup ++ [v] else s.addedGroup)
  ∧ ((reloadLeafStep s v).changedGroup
        = if s.i + 1 = 1 then s.changedGroup ++ [v] else s.changedGroup)
  ∧ ((reloadLeafStep s v).removedGroup
        = if s.i + 1 = 2 then s.removedGroup ++ [v] else s.removedGroup) := by
  unfold reloadLeafStep
  dsimp only
  split_ifs <;> simp_all

/-- For a recognized verb, `ChangeProcessState` posts exactly one
request, for the method `supervisor.<change>Process`. -/
theorem ChangeProcessState_valid_log {Resp Reply : Type}
    (postCall : String → RpcArg → Except String Resp)
    (decodeResp : Resp → Except String Reply) (change processName : String)
    (hm : change = "start" ∨ change = "stop") :
    (ChangeProcessState postCall decodeResp change processName).2
      = ["supervisor." ++ change ++ "Process"] := by
  unfold ChangeProcessState
  rw [if_neg (not_not_intro hm)]
  dsimp only
  cases postCall ("supervisor." ++ change ++ "Process") (RpcArg.procName processName) <;> rfl

/-- For a recognized verb, `ChangeAllProcessState` posts exactly one
request, for the method `supervisor.<change>AllProcesses`. -/
theorem ChangeAllProcessState_valid_log {Resp Reply : Type}
    (postCall : String → RpcArg → Except String Resp)
    (decodeResp : Resp → Except String Reply) (change : String)
    (hm : change = "start" ∨ change = "stop") :
    (ChangeAllProcessState postCall decodeResp change).2
      = ["supervisor." ++ change ++ "AllProcesses"] := by
  unfold ChangeAllProcessState
  rw [if_neg (not_not_intro hm)]
  dsimp only
  cases postCall ("supervisor." ++ change ++ "AllProcesses") (RpcArg.waitFlag true) <;> rfl

/-- C5: for any verb other than `start` or `stop`, both
`ChangeProcessState` and `ChangeAllProcessState` return the local
validation failure `Incorrect required state` with an empty transport
log — under every transport and decoder oracle, so the transport is
never invoked — while for the two recognized verbs each sends exactly
one request for the corresponding method. -/
theorem changeState_invalid_verb_no_transport {Resp Reply : Type}
    (postCall : String → RpcArg → Except String Resp)
    (decodeResp : Resp → Except String Reply) (change processName : String)
    (h1 : change ≠ "start") (h2 : change ≠ "stop") :
    ChangeProcessState postCall decodeResp change processName
        = (Except.error "Incorrect required state", [])
  ∧ ChangeAllProcessState postCall decodeResp change
        = (Except.error "Incorrect required state", [])
  ∧ (ChangeProcessState postCall decodeResp "start" processName).2
        = ["supervisor.startProcess"]
  ∧ (ChangeProcessState postCall decodeResp "stop" processName).2
        = ["supervisor.stopProcess"]
  ∧ (ChangeAllProcessState postCall decodeResp "start").2
        = ["supervisor.startAllProcesses"]
  ∧ (ChangeAllProcessState postCall decodeResp "stop").2
        = ["supervisor.stopAllProcesses"] := by
  refine ⟨?_, ?_, ?_, ?_, ?_, ?_⟩
  · unfold ChangeProcessState
    rw [if_pos (by simp [h1, h2])]
  · unfold ChangeAllProcessState
    rw [if_pos (by simp [h1, h2])]
  · rw [ChangeProcessState_valid_log postCall decodeResp "start" processName (Or.inl rfl)]
    rfl
  · rw [ChangeProcessState_valid_log postCall decodeResp "stop" processName (Or.inr rfl)]
    rfl
  · rw [ChangeAllProcessState_valid_log postCall decodeResp "start" (Or.inl rfl)]
    rfl
  · rw [ChangeAllProcessState_valid_log postCall decodeResp "stop" (Or.inr rfl)]
    rfl

/-- C5 witness: the unrecognized verb `restart` is rejected locally with
an empty transport log, even under an oracle that would answer. -/
theorem changeState_invalid_verb_no_transport_witness :
    ChangeProcessState (fun _ _ => (Except.error "unreachable" : Except String Unit))
        (fun _ => (Except.error "unreachable" : Except String Bool)) "restart" "webapp"
        = (Except.error "Incorrect required state", [])
  ∧ ChangeAllProcessState (fun _ _ => (Except.error "unreachable" : Except String Unit))
        (fun _ => (Except.error "unreachable" : Except String Bool)) "restart"
        = (Except.error "Incorrect required state", [])
  ∧ (ChangeProcessState (fun _ _ => (Except.error "unreachable" : Except String Unit))
        (fun _ => (Except.error "unreachable" : Except String Bool)) "start" "webapp").2
        = ["supervisor.startProcess"]
  ∧ (ChangeProcessState (fun _ _ => (Except.error "unreachable" : Except String Unit))
        (fun _ => (Except.error "unreachable" : Except String Bool)) "stop" "webapp").2
        = ["supervisor.stopProcess"]
  ∧ (ChangeAllProcessState (fun _ _ => (Except.error "unreachable" : Except String Unit))
        (fun _ => (Except.error "unreachable" : Except String Bool)) "start").2
        = ["supervisor.startAllProcesses"]
  ∧ (ChangeAllProcessState (fun _ _ => (Except.error "unreachable" : Except String Unit))
        (fun _ => (Except.error "unreachable" : Except String Bool)) "stop").2
        = ["supervisor.stopAllProcesses"] :=
  changeState_invalid_verb_no_transport _ _ "restart" "webapp" (by decide) (by decide)

/-- C6: whenever the response status code is outside the 2xx class,
`post` closes the response body and returns the failure
`Response code is NOT 2xx` instead of the response. -/
theorem post_non2xx_closes_body_and_fails (resp : HttpResponse)
    (h : resp.statusCode / 100 ≠ 2) :
    (checkResponse resp).1 = PostOutcome.err "Response code is NOT 2xx"
  ∧ (checkResponse resp).2.1.bodyClosed = true := by
  unfold checkResponse
  rw [if_pos h]
  exact ⟨rfl, rfl⟩

/-- C6 witness: a 404 response yields the failure with its body closed. -/
theorem post_non2xx_closes_body_and_fails_witness :
    (checkResponse { statusCode := 404, status := "404 Not Found", bodyClosed := false }).1
        = PostOutcome.err "Response code is NOT 2xx"
  ∧ (checkResponse { statusCode := 404, status := "404 Not Found", bodyClosed := false }).2.1.bodyClosed
        = true :=
  post_non2xx_closes_body_and_fails
    { statusCode := 404, status := "404 Not Found", bodyClosed := false } (by decide)

/-- C7 (counterexample): for the concrete non-2xx response with status
text `403 Forbidden`, the failure `post` returns is the fixed message
`Response code is NOT 2xx`; the status text does not occur in it, and a
response with a different status text yields the very same failure, so
the returned failure does not carry the literal status text. -/
theorem post_failure_lacks_status_text :
    (checkResponse { statusCode := 403, status := "403 Forbidden", bodyClosed := false }).1
        = PostOutcome.err "Response code is NOT 2xx"
  ∧ occursIn "403 Forbidden" "Response code is NOT 2xx" = false
  ∧ (checkResponse { statusCode := 500, status := "500 Internal Server Error", bodyClosed := false }).1
        = (checkResponse { statusCode := 403, status := "403 Forbidden", bodyClosed := false }).1 := by
  refine ⟨rfl, by decide, rfl⟩

/-- C7 (amended): for every non-2xx response the returned failure is the
fixed message `Response code is NOT 2xx`; the literal status text is
not carried in the failure but printed to standard output as
`Bad Response: <status>`. -/
theorem post_non2xx_fixed_message_and_print (resp : HttpResponse)
    (h : resp.statusCode / 100 ≠ 2) :
    (checkResponse resp).1 = PostOutcome.err "Response code is NOT 2xx"
  ∧ (checkResponse resp).2.2 = ["Bad Response: " ++ resp.status] := by
  unfold checkResponse
  rw [if_pos h]
  exact ⟨rfl, rfl⟩

/-- C7 witness: a 500 response yields the fixed failure message and the
diagnostic print line carrying the status text. -/
theorem post_non2xx_fixed_message_and_print_witness :
    (checkResponse { statusCode := 500, status := "500 Internal Server Error", bodyClosed := false }).1
        = PostOutcome.err "Response code is NOT 2xx"
  ∧ (checkResponse { statusCode := 500, status := "500 Internal Server Error", bodyClosed := false }).2.2
        = ["Bad Response: " ++ "500 Internal Server Error"] :=
  post_non2xx_fixed_message_and_print
    { statusCode := 500, status := "500 Internal Server Error", bodyClosed := false } (by decide)

/-- C8: on a truncated document whose well-formed prefix carries the
single leaf value `a` before a decode failure, `ReloadConfig` returns a
nil error together with the partial accumulators built before the
failure: the decode failure reported by the processor run is discarded
(line 247 ignores it) and the partial result is handed to the caller,
contradicting the claim that the failure is surfaced and the
accumulators discarded. -/
theorem ReloadConfig_swallows_decode_failure :
    ReloadConfig (Except.ok { statusCode := 200, status := "200 OK", bodyClosed := false })
        { events := [XmlEvent.leaf "a"], decodeFailure := some "unexpected EOF" }
      = Except.ok { addedGroup := ["a"], changedGroup := [], removedGroup := [] } := by
  rfl

/-- A string has positive length exactly when it is not the empty
string. -/
theorem string_length_pos_iff (s : String) : 0 < s.length ↔ s ≠ "" := by
  constructor
  · intro h he
    subst he
    simp at h
  · intro h
    by_contra hle
    have h0 : s.length = 0 := by omega
    have hd : s.data = [] := by
      have h1 := String.length_data s
      have h2 : s.data.length = 0 := by omega
      exact List.length_eq_zero.mp h2
    exact h (String.ext (by rw [hd]))

/-- C9: on both the http(s) branch and the unix-socket branch of `post`,
basic-auth credentials are attached to the outgoing request exactly
when both the configured username and password are non-empty, and the
two branches agree on this for every configuration. -/
theorem basicAuth_iff_credentials_nonempty (user password serverurl : String) :
    ((buildHttpBranchRequest user password serverurl).hasBasicAuth = true
        ↔ user ≠ "" ∧ password ≠ "")
  ∧ ((buildUnixBranchRequest user password).hasBasicAuth = true
        ↔ user ≠ "" ∧ password ≠ "")
  ∧ (buildHttpBranchRequest user password serverurl).hasBasicAuth
        = (buildUnixBranchRequest user password).hasBasicAuth := by
  have hiff : (0 < user.length ∧ 0 < password.length) ↔ (user ≠ "" ∧ password ≠ "") :=
    and_congr (string_length_pos_iff user) (string_length_pos_iff password)
  by_cases h : 0 < user.length ∧ 0 < password.length
  · refine ⟨?_, ?_, ?_⟩ <;>
      simp [buildHttpBranchRequest, buildUnixBranchRequest, if_pos h, hiff.mp h]
  · refine ⟨?_, ?_, ?_⟩ <;>
      simp [buildHttpBranchRequest, buildUnixBranchRequest, if_neg h, hiff.not.mp h]

/-- C10: when the configured address parses but its scheme is neither
`http`, `https` nor `unix`, `post` invokes no transport (empty log
under every oracle), returns no error from either branch, and falls
through to the status check where it dereferences the nil response. -/
theorem post_unknown_scheme_nil_dereference (u : Url) (user password serverurl : String)
    (httpSend unixSend : HttpRequest → Except String HttpResponse)
    (h1 : u.scheme ≠ "http") (h2 : u.scheme ≠ "https") (h3 : u.scheme ≠ "unix") :
    post (Except.ok u) user password serverurl httpSend unixSend
      = (PostOutcome.nilDereference, []) := by
  unfold post
  dsimp only
  rw [if_neg (by simp [h1, h2]), if_neg h3]

/-- C10 witness: an `ftp` scheme address reaches the nil dereference
with no transport invoked. -/
theorem post_unknown_scheme_nil_dereference_witness :
    post (Except.ok { scheme := "ftp", path := "/srv/supervisor.sock" }) "user" "pass"
        "ftp://host" (fun _ => Except.error "unreachable") (fun _ => Except.error "unreachable")
      = (PostOutcome.nilDereference, []) :=
  post_unknown_scheme_nil_dereference
    { scheme := "ftp", path := "/srv/supervisor.sock" } "user" "pass" "ftp://host"
    (fun _ => Except.error "unreachable") (fun _ => Except.error "unreachable")
    (by decide) (by decide) (by decide)
